import Mathlib

/-!
Verification of the MCP streamable-HTTP transport layer
(`src/http_transport.py`, `src/transport_base.py`).

The Python code is shallowly embedded: JSON documents become an inductive
`Json` type, pydantic models become structures whose `Optional[Any]` fields
are plain `Json` (Python `None` = `Json.null`), the mutable session dict
becomes an association list threaded through the functions, and the sources
of nondeterminism (`uuid.uuid4()`, the event-loop clock, exceptions raised
by tool handlers or during SSE preparation) become explicit parameters.
-/

/-- JSON values, as produced by `json.loads` / consumed by `json.dumps`.
Numbers are modelled as integers (no claim depends on float behaviour). -/
inductive Json where
  | null : Json
  | bool : Bool → Json
  | num : Int → Json
  | str : String → Json
  | arr : List Json → Json
  | obj : List (String × Json) → Json
deriving Repr

/-- Last-occurrence key lookup on a JSON object's field list: `json.loads`
builds a Python dict in which a repeated key keeps the last value. -/
def lookupLast (k : String) (fields : List (String × Json)) : Option Json :=
  fields.reverse.lookup k

/-- First-occurrence lookup for registries modelled as association lists
with unique keys (Python dict indexing). -/
def lookupFirst {α : Type} (k : String) (t : List (String × α)) : Option α :=
  t.lookup k

/-- Pydantic model `JsonRpcRequest` (http_transport.py lines 30-35).
`params : Optional[Dict[str, Any]]` keeps the None/dict distinction;
`id : Optional[Any] = None` is plain `Json` with `Json.null` for `None`. -/
structure JsonRpcRequest where
  jsonrpc : String := "2.0"
  method : String
  params : Option (List (String × Json)) := none
  id : Json := Json.null
deriving Repr

/-- Pydantic model `JsonRpcResponse` (lines 38-43).  All four fields are
present on every instance; `Optional[Any] = None` fields are `Json.null`. -/
structure JsonRpcResponse where
  jsonrpc : String := "2.0"
  id : Json := Json.null
  result : Json := Json.null
  error : Json := Json.null
deriving Repr

/-- Pydantic model `JsonRpcError` (lines 46-50), already in dumped form:
`model_dump()` of `JsonRpcError(code=c, message=m, data=d)`. `data=None`
serialises as `null` because `model_dump` does not drop `None` fields. -/
def mkError (code : Int) (message : String) (data : Json) : Json :=
  Json.obj [("code", Json.num code), ("message", Json.str message),
            ("data", data)]

/-- `JsonRpcRequest.model_dump()` as a JSON object: pydantic emits every
field in declaration order, serialising `None` as `null`. -/
def encodeRequest (r : JsonRpcRequest) : Json :=
  Json.obj [("jsonrpc", Json.str r.jsonrpc),
            ("method", Json.str r.method),
            ("params", match r.params with
                       | none => Json.null
                       | some f => Json.obj f),
            ("id", r.id)]

/-- `JsonRpcRequest(**fields)` on a keyword dict: pydantic validation.
`method` must be a string (required); `jsonrpc` must be a string if given,
defaulting to "2.0"; `params` must be absent, `None`, or an object;
`id` accepts anything (`Any`), absent or `None` becoming `None`.
Unknown extra keys are ignored.  On failure the offending field names are
returned (standing for `ValidationError.errors()`). -/
def validateRequest (fields : List (String × Json)) :
    Except (List String) JsonRpcRequest :=
  match lookupLast "method" fields with
  | some (Json.str m) =>
    let jr : Except (List String) String :=
      match lookupLast "jsonrpc" fields with
      | none => Except.ok "2.0"
      | some (Json.str s) => Except.ok s
      | some _ => Except.error ["jsonrpc"]
    match jr with
    | Except.error ns => Except.error ns
    | Except.ok v =>
      let pr : Except (List String) (Option (List (String × Json))) :=
        match lookupLast "params" fields with
        | none => Except.ok none
        | some Json.null => Except.ok none
        | some (Json.obj g) => Except.ok (some g)
        | some _ => Except.error ["params"]
      match pr with
      | Except.error ns => Except.error ns
      | Except.ok p =>
        Except.ok { jsonrpc := v, method := m, params := p,
                    id := (lookupLast "id" fields).getD Json.null }
  | _ => Except.error ["method"]

/-- Decoding a JSON document into a `JsonRpcRequest`: the endpoint runs
`JsonRpcRequest(**body)` on the parsed body, which requires an object. -/
def decodeRequest (j : Json) : Except (List String) JsonRpcRequest :=
  match j with
  | Json.obj fields => validateRequest fields
  | _ => Except.error ["<not a mapping>"]

/-- `JsonRpcResponse.model_dump()`: every field is emitted, in declaration
order, with `None` serialised as `null` (no key is omitted). -/
def responseToWire (r : JsonRpcResponse) : Json :=
  Json.obj [("jsonrpc", Json.str r.jsonrpc), ("id", r.id),
            ("result", r.result), ("error", r.error)]

/-- The `code` member of a response's `error` object, when there is one. -/
def respCode (r : JsonRpcResponse) : Option Int :=
  match r.error with
  | Json.obj f => match lookupLast "code" f with
                  | some (Json.num c) => some c
                  | _ => none
  | _ => none

/-- A session record (`self._sessions[sid]`, a dict created at lines
256-259 with keys `created_at` and `requests`; `last_seen` is added by the
update block at line 265, so it may be missing — `_cleanup_sessions` reads
it with `.get("last_seen", 0)`). -/
structure Session where
  createdAt : Int
  requests : Nat
  lastSeen : Option Int := none
deriving Repr, DecidableEq

/-- The session table `self._sessions`, a dict from session id to record,
modelled as an insertion-ordered association list with unique keys. -/
abbrev SessionTable : Type := List (String × Session)

/-- Python dict assignment `t[k] = v`: replace in place if the key exists,
otherwise append. -/
def setKey (t : SessionTable) (k : String) (v : Session) : SessionTable :=
  if (t.map Prod.fst).contains k then
    t.map (fun p => if p.1 = k then (k, v) else p)
  else
    t ++ [(k, v)]

/-- The update block at lines 263-265: `requests += 1` and
`last_seen = now` for the named session, if present. -/
def touchUpdate (t : SessionTable) (k : String) (now : Int) : SessionTable :=
  t.map (fun p =>
    if p.1 = k then
      (p.1, { p.2 with requests := p.2.requests + 1, lastSeen := some now })
    else p)

/-- `_handle_session` (lines 236-267).  `hdr` is
`request.headers.get("mcp-session-id")`; `freshId` stands for
`str(uuid.uuid4())` and `now` for `asyncio.get_event_loop().time()`.
Python's `if session_id:` is truthiness, so an empty-string header value
falls into the creation branch.  An unknown non-empty id returns `None`
immediately, leaving the table untouched. -/
def handle_session (t : SessionTable) (hdr : Option String) (freshId : String)
    (now : Int) : Option String × SessionTable :=
  match hdr with
  | some sid =>
    if sid = "" then
      let t1 := setKey t freshId { createdAt := now, requests := 0 }
      (some freshId, touchUpdate t1 freshId now)
    else if (t.map Prod.fst).contains sid then
      (some sid, touchUpdate t sid now)
    else
      (none, t)
  | none =>
    let t1 := setKey t freshId { createdAt := now, requests := 0 }
    (some freshId, touchUpdate t1 freshId now)

/-- `_cleanup_sessions` (lines 377-389): collect every id whose
`now - last_seen (default 0)` strictly exceeds 3600 and delete it;
equivalently, keep the rest in order. -/
def cleanup_sessions (t : SessionTable) (now : Int) : SessionTable :=
  t.filter (fun p => !(now - (p.2.lastSeen.getD 0) > 3600 : Bool))

/-- The characters `urllib.parse` accepts inside a URL scheme after the
leading letter. -/
def isSchemeChar (c : Char) : Bool :=
  c.isAlphanum || c = '+' || c = '-' || c = '.'

/-- Model of `urlparse(origin).hostname` for origin strings: split off a
`scheme:` prefix (first char a letter, rest scheme chars), then read a
`//netloc` part up to the next `/`, `?` or `#`, drop userinfo and port,
and lowercase; `None` when there is no host. -/
def urlHostname (origin : String) : Option String :=
  let cs := origin.data
  let i := cs.findIdx (fun c => c = ':')
  let rest :=
    match cs with
    | [] => cs
    | c0 :: _ =>
      if i < cs.length then
        if c0.isAlpha && decide (1 ≤ i)
            && ((cs.take i).drop 1).all isSchemeChar then
          cs.drop (i + 1)
        else cs
      else cs
  if rest.take 2 = ['/', '/'] then
    let netloc := (rest.drop 2).takeWhile
      (fun c => !(c = '/' || c = '?' || c = '#'))
    let hostport :=
      if netloc.contains '@' then
        ((netloc.reverse.takeWhile (fun c => c ≠ '@')).reverse)
      else netloc
    let host := hostport.takeWhile (fun c => c ≠ ':')
    if host = [] then none
    else some (String.mk (host.map Char.toLower))
  else none

/-- `_is_valid_origin` (lines 269-293): empty/absent origins pass, loopback
hostnames pass, otherwise the literal origin must be in the configured
CORS allow-list. -/
def is_valid_origin (corsOrigins : List String) (origin : String) : Bool :=
  if origin = "" then true
  else if urlHostname origin = some "localhost"
       || urlHostname origin = some "127.0.0.1" then true
  else corsOrigins.contains origin

/-- The fixed allow-list `streaming_methods` (line 310). -/
def streamingMethods : List String :=
  ["query_table", "list_tables", "describe_table"]

/-- `_should_stream` (lines 295-314): stream when the result is a string
longer than 5000 characters, or when the method is allow-listed. -/
def should_stream (method : String) (result : Json) : Bool :=
  (match result with
   | Json.str s => decide (s.length > 5000)
   | _ => false)
  || streamingMethods.contains method

/-- What `await tools[method](**params)` does: returns a value, raises a
`ValueError` (message = `str(e)`), or raises some other exception.  A bad
keyword set (a `TypeError`) is covered by `otherError`. -/
inductive InvokeResult where
  | ok : Json → InvokeResult
  | valueError : String → InvokeResult
  | otherError : String → InvokeResult
deriving Repr

/-- A registered tool handler: the behaviour of one async tool function on
a given parameter mapping. -/
def Handler : Type := List (String × Json) → InvokeResult

/-- Python `repr` of a list of strings, as interpolated into the
tool-not-found message by `f"... Available tools: {available}"`. -/
def pyReprStringList (names : List String) : String :=
  "[" ++ String.intercalate ", "
    (names.map (fun n => "\x27" ++ n ++ "\x27")) ++ "]"

/-- `TransportBase.invoke_tool` (transport_base.py lines 133-161): raise
`ValueError` when the method is not registered, otherwise call the handler
and let any exception it raises propagate. -/
def invoke_tool (tools : List (String × Handler)) (method : String)
    (params : List (String × Json)) : InvokeResult :=
  match lookupFirst method tools with
  | none => InvokeResult.valueError
      ("Tool \x27" ++ method ++ "\x27 not found. Available tools: "
        ++ pyReprStringList (tools.map Prod.fst))
  | some h => h params

/-- Escape one character as `json.dumps` does for the characters that
occur in this system's payloads. -/
def jsonEscapeChar (c : Char) : String :=
  if c = '"' then "\\\""
  else if c = '\\' then "\\\\"
  else if c = '\x0a' then "\\n"
  else if c = '\x09' then "\\t"
  else if c = '\x0d' then "\\r"
  else String.mk [c]

/-- A JSON string literal as `json.dumps` renders it. -/
def jsonQuote (s : String) : String :=
  "\"" ++ String.join (s.data.map jsonEscapeChar) ++ "\""

mutual

/-- `json.dumps` with its default separators `", "` and `": "`. -/
def dumps : Json → String
  | Json.null => "null"
  | Json.bool true => "true"
  | Json.bool false => "false"
  | Json.num n => toString n
  | Json.str s => jsonQuote s
  | Json.arr xs => "[" ++ String.intercalate ", " (dumpsList xs) ++ "]"
  | Json.obj fs =>
    "\x7b" ++ String.intercalate ", " (dumpsFields fs) ++ "\x7d"

/-- The rendered elements of a JSON array. -/
def dumpsList : List Json → List String
  | [] => []
  | x :: xs => dumps x :: dumpsList xs

/-- The rendered `"key": value` members of a JSON object. -/
def dumpsFields : List (String × Json) → List String
  | [] => []
  | (k, v) :: fs => (jsonQuote k ++ ": " ++ dumps v) :: dumpsFields fs

end

/-- Whether the SSE event generator's body (`_create_sse_response`, lines
332-358) runs to completion or an exception with message `msg` is raised
while preparing the event (during `model_dump`/`json.dumps`), before the
`yield` is reached. -/
inductive SsePrep where
  | ok : SsePrep
  | fail : String → SsePrep
deriving Repr, DecidableEq

/-- The SSE frames produced by `event_generator`: on success, one
`data: <full JSON-RPC response>` frame; on a preparation failure, one
frame carrying the -32603 error response instead. -/
def sseEvents (result : Json) (requestId : Json) (prep : SsePrep) :
    List String :=
  match prep with
  | SsePrep.ok =>
    ["data: " ++ dumps (responseToWire { id := requestId, result := result })
      ++ "\x0a\x0a"]
  | SsePrep.fail msg =>
    ["data: " ++ dumps (responseToWire
      { id := requestId,
        error := mkError (-32603) ("Streaming error: " ++ msg) Json.null })
      ++ "\x0a\x0a"]

/-- The headers dict built at lines 360-369 of `_create_sse_response`,
including `Mcp-Session-Id` exactly when a session id is present. -/
def sseHeaders (sessionId : Option String) : List (String × String) :=
  [("Cache-Control", "no-cache"),
   ("Connection", "keep-alive"),
   ("Content-Type", "text/event-stream"),
   ("Access-Control-Allow-Origin", "*"),
   ("Access-Control-Allow-Headers", "Content-Type")]
  ++ (match sessionId with
      | some sid => [("Mcp-Session-Id", sid)]
      | none => [])

/-- The HTTP status of the `StreamingResponse` returned by
`_create_sse_response` (FastAPI's default). -/
def sseStatus : Nat := 200

/-- The body handed to `POST /mcp`: either bytes that `request.json()`
fails to parse, or the parsed JSON document. -/
inductive BodyParse where
  | invalidJson : BodyParse
  | json : Json → BodyParse
deriving Repr

/-- The observable outcome of one `POST /mcp` request.
`forbidden` is the `HTTPException(403)` raised before the body is read;
`uncaughtTypeError` is the `TypeError` that `JsonRpcRequest(**body)`
raises on a non-mapping body, which no handler in `mcp_endpoint` catches;
`jsonResp` carries the HTTP status, the `JsonRpcResponse` (serialised on
the wire by `responseToWire`) and the `Mcp-Session-Id` response header if
one is attached; `sse` carries the constructor arguments of
`_create_sse_response`. -/
inductive HttpOutcome where
  | forbidden : HttpOutcome
  | uncaughtTypeError : HttpOutcome
  | jsonResp : Nat → JsonRpcResponse → Option String → HttpOutcome
  | sse : Json → Json → Option String → HttpOutcome
deriving Repr

/-- Python truthiness of `headers.get(...)`: `None` and `""` are falsy. -/
def headerTruthy : Option String → Bool
  | none => false
  | some s => !(s = "")

/-- The server-side environment of one request: the configured CORS
allow-list, the tool registry (`get_available_tools()`), the current
session table, the next `uuid.uuid4()` value and the event-loop clock. -/
structure Env where
  corsOrigins : List String
  tools : List (String × Handler)
  sessions : SessionTable
  freshId : String
  now : Int

/-- `mcp_endpoint` (http_transport.py lines 113-215) as a function from
the request's Origin header, `Mcp-Session-Id` header and body to the
outcome and the session table afterwards.

Control flow, in source order: reject non-allow-listed truthy Origins with
403; parse the body (-32700 on parse failure); validate it as a
`JsonRpcRequest` (-32600 on `ValidationError`; a non-mapping body raises
an uncaught `TypeError`); touch the session; invoke the tool and classify:
`ValueError` becomes -32601 with status 404, other exceptions -32603 with
status 500, success an SSE stream or a plain 200 response.  Only success
responses carry the session header; the -32700 and -32600 responses keep
the default `id = None`. -/
def mcp_endpoint (env : Env) (origin : Option String)
    (sessionHdr : Option String) (body : BodyParse) :
    HttpOutcome × SessionTable :=
  if headerTruthy origin
      && !is_valid_origin env.corsOrigins (origin.getD "") then
    (HttpOutcome.forbidden, env.sessions)
  else
    match body with
    | BodyParse.invalidJson =>
      (HttpOutcome.jsonResp 400
        { error := mkError (-32700) "Invalid JSON" Json.null } none,
       env.sessions)
    | BodyParse.json j =>
      match j with
      | Json.obj fields =>
        match validateRequest fields with
        | Except.error ns =>
          (HttpOutcome.jsonResp 400
            { error := mkError (-32600) "Invalid JSON-RPC request"
                (Json.arr (ns.map Json.str)) } none,
           env.sessions)
        | Except.ok req =>
          let st := handle_session env.sessions sessionHdr env.freshId env.now
          let sessionId := st.1
          let sessions2 := st.2
          match invoke_tool env.tools req.method ((req.params).getD []) with
          | InvokeResult.ok result =>
            if should_stream req.method result then
              (HttpOutcome.sse result req.id sessionId, sessions2)
            else
              (HttpOutcome.jsonResp 200
                { id := req.id, result := result } sessionId,
               sessions2)
          | InvokeResult.valueError msg =>
            (HttpOutcome.jsonResp 404
              { id := req.id, error := mkError (-32601) msg Json.null } none,
             sessions2)
          | InvokeResult.otherError msg =>
            (HttpOutcome.jsonResp 500
              { id := req.id,
                error := mkError (-32603) ("Tool execution failed: " ++ msg)
                  Json.null } none,
             sessions2)
      | _ => (HttpOutcome.uncaughtTypeError, env.sessions)

/-- The `Mcp-Session-Id` header of an outcome, if any: `JSONResponse`
outcomes carry it when `_handle_session` returned an id and the response
was a success (lines 154-156); SSE outcomes via `sseHeaders`; the 403 and
uncaught-`TypeError` outcomes carry none. -/
def outcomeSessionHeader : HttpOutcome → Option String
  | HttpOutcome.forbidden => none
  | HttpOutcome.uncaughtTypeError => none
  | HttpOutcome.jsonResp _ _ sid => sid
  | HttpOutcome.sse _ _ sid => sid

lemma lookupFirst_eq_none_of_not_mem {α : Type} {k : String}
    {t : List (String × α)} (h : k ∉ t.map Prod.fst) :
    lookupFirst k t = none := by
  induction t with
  | nil => rfl
  | cons p t ih =>
    obtain ⟨a, b⟩ := p
    simp only [List.map_cons, List.mem_cons, not_or] at h
    simp only [lookupFirst, List.lookup]
    rw [beq_eq_false_iff_ne.mpr h.1]
    exact ih h.2

lemma touchUpdate_of_not_mem {t : SessionTable} {k : String} {now : Int}
    (h : k ∉ t.map Prod.fst) : touchUpdate t k now = t := by
  induction t with
  | nil => rfl
  | cons p t ih =>
    simp only [List.map_cons, List.mem_cons, not_or] at h
    simp only [touchUpdate, List.map_cons] at *
    rw [if_neg (fun hk => h.1 hk.symm)]
    rw [ih h.2]

lemma contains_eq_false_of_not_mem {l : List String} {k : String}
    (h : k ∉ l) : l.contains k = false := by
  simpa using h

lemma setKey_of_not_mem {t : SessionTable} {k : String} {v : Session}
    (h : k ∉ t.map Prod.fst) : setKey t k v = t ++ [(k, v)] := by
  unfold setKey
  rw [contains_eq_false_of_not_mem h]
  simp

lemma contains_eq_true_of_mem {l : List String} {k : String}
    (h : k ∈ l) : l.contains k = true := by
  simpa using h

/-- C6: for every timestamp `now` and session table, `_cleanup_sessions`
removes exactly the sessions idle for strictly more than 3600 seconds,
leaves every other session record unchanged, and adds nothing; in
particular a sweep at or before the timeout leaves a session intact. -/
theorem cleanup_sessions_spec (now : Int) (t : SessionTable) :
    (∀ (k : String) (s : Session) (ls : Int),
      (k, s) ∈ t → s.lastSeen = some ls →
        ((now - ls > 3600 → (k, s) ∉ cleanup_sessions t now)
         ∧ (now - ls ≤ 3600 → (k, s) ∈ cleanup_sessions t now)))
    ∧ (∀ e, e ∈ cleanup_sessions t now → e ∈ t) := by
  constructor
  · intro k s ls hmem hls
    constructor
    · intro hexp hin
      rw [cleanup_sessions, List.mem_filter] at hin
      simp only [hls, Option.getD_some] at hin
      have h2 := hin.2
      simp only [Bool.not_eq_true', decide_eq_false_iff_not, not_lt] at h2
      omega
    · intro hok
      rw [cleanup_sessions, List.mem_filter]
      refine ⟨hmem, ?_⟩
      simp only [hls, Option.getD_some, Bool.not_eq_true',
        decide_eq_false_iff_not, not_lt]
      omega
  · intro e he
    exact (List.mem_filter.mp he).1

/-- Witness for C6 at a concrete table: a session last seen at time 0 is
swept at time 4000 and left intact at time 3600. -/
theorem cleanup_sessions_spec_witness :
    (("sid-a", ({ createdAt := 0, requests := 1, lastSeen := some 0 } :
        Session)) ∈
      ([("sid-a", { createdAt := 0, requests := 1, lastSeen := some 0 })] :
        SessionTable))
    ∧ ("sid-a", ({ createdAt := 0, requests := 1, lastSeen := some 0 } :
        Session)) ∉
      cleanup_sessions
        [("sid-a", { createdAt := 0, requests := 1, lastSeen := some 0 })]
        4000
    ∧ ("sid-a", ({ createdAt := 0, requests := 1, lastSeen := some 0 } :
        Session)) ∈
      cleanup_sessions
        [("sid-a", { createdAt := 0, requests := 1, lastSeen := some 0 })]
        3600 := by
  refine ⟨List.mem_singleton.mpr rfl, ?_, ?_⟩
  · exact ((cleanup_sessions_spec 4000 _).1 "sid-a" _ 0
      (List.mem_singleton.mpr rfl) rfl).1 (by norm_num)
  · exact ((cleanup_sessions_spec 3600 _).1 "sid-a" _ 0
      (List.mem_singleton.mpr rfl) rfl).2 (by norm_num)

/-- C2 (amended): the session touch operation `_handle_session`:
a known non-empty supplied id is returned unchanged with that session's
`last_seen` and request counter updated; a supplied non-empty id that is
unknown is never echoed back, and *no* session id is returned and no
session is created (the table is left exactly as it was); with no supplied
id, a fresh random id is minted, a `Session` record is created for it and
the fresh id is returned. -/
theorem handle_session_touch_spec (t : SessionTable) (fresh : String)
    (now : Int) :
    (∀ sid, sid ≠ "" → sid ∈ t.map Prod.fst →
      handle_session t (some sid) fresh now
        = (some sid, touchUpdate t sid now)
      ∧ ∀ s, (sid, s) ∈ t →
          (sid, { s with requests := s.requests + 1, lastSeen := some now })
            ∈ touchUpdate t sid now)
    ∧ (∀ sid, sid ≠ "" → sid ∉ t.map Prod.fst →
        handle_session t (some sid) fresh now = (none, t))
    ∧ (fresh ∉ t.map Prod.fst →
        handle_session t none fresh now
          = (some fresh,
             t ++ [(fresh, { createdAt := now, requests := 1,
                             lastSeen := some now })])) := by
  refine ⟨?_, ?_, ?_⟩
  · intro sid hne hmem
    constructor
    · simp only [handle_session, if_neg hne,
        contains_eq_true_of_mem hmem, if_pos]
    · intro s hs
      have h := List.mem_map_of_mem
        (f := fun p : String × Session =>
          if p.1 = sid then
            (p.1, { p.2 with requests := p.2.requests + 1,
                             lastSeen := some now })
          else p) hs
      simpa [touchUpdate] using h
  · intro sid hne hnmem
    simp only [handle_session, if_neg hne]
    rw [contains_eq_false_of_not_mem hnmem]
    simp
  · intro hnmem
    simp only [handle_session]
    rw [setKey_of_not_mem hnmem]
    have h1 : touchUpdate
        (t ++ [(fresh, { createdAt := now, requests := 0 })]) fresh now
        = touchUpdate t fresh now
          ++ touchUpdate [(fresh, { createdAt := now, requests := 0 })]
               fresh now := by
      simp [touchUpdate]
    rw [h1, touchUpdate_of_not_mem hnmem]
    simp [touchUpdate]

/-- Witness for C2 (amended) at concrete inputs: with no supplied id and
an empty table, a fresh id is minted, recorded and returned. -/
theorem handle_session_touch_spec_witness :
    "fresh-uuid" ∉ (([] : SessionTable)).map Prod.fst
    ∧ handle_session [] none "fresh-uuid" 7
        = (some "fresh-uuid",
           [("fresh-uuid", { createdAt := 7, requests := 1,
                             lastSeen := some 7 })]) :=
  ⟨by simp, (handle_session_touch_spec [] "fresh-uuid" 7).2.2 (by simp)⟩

/-- Counterexample to C2 as stated: a request supplying the unknown id
"unknown-session-id" to an empty session table gets back *no* session id
at all — `_handle_session` returns `None` and creates no session record —
whereas the claim asserts a freshly minted id is returned and a new
`Session` record is created. -/
theorem handle_session_unknown_cex :
    handle_session [] (some "unknown-session-id") "fresh-uuid" 0
      = (none, []) := rfl

/-- C3: for every method name and string result, `_should_stream` is true
exactly when the result is longer than 5000 characters or the method is in
the allow-list of potentially large tool names; in particular streaming is
on for `list_tables` with a short result and for `insert_record` with a
6000-character result, and off for `insert_record` with a short result. -/
theorem should_stream_spec :
    (∀ (m r : String),
      should_stream m (Json.str r) = true ↔
        (r.length > 5000 ∨ m ∈ streamingMethods))
    ∧ should_stream "list_tables" (Json.str "short") = true
    ∧ should_stream "insert_record"
        (Json.str (String.mk (List.replicate 6000 'x'))) = true
    ∧ should_stream "insert_record" (Json.str "short") = false := by
  refine ⟨?_, by rfl, ?_, by rfl⟩
  · intro m r
    simp [should_stream]
  · have hlen : (String.mk (List.replicate 6000 'x')).length = 6000 := by
      show (List.replicate 6000 'x').length = 6000
      exact List.length_replicate 6000 'x'
    show (decide ((String.mk (List.replicate 6000 'x')).length > 5000)
      || streamingMethods.contains "insert_record") = true
    rw [hlen]
    rfl

/-- C4: decoding the wire form produced by encoding any well-formed
`JsonRpcRequest` succeeds and reproduces the request — in particular its
method, params and id — exactly. -/
theorem decode_encode_roundtrip (x : JsonRpcRequest) :
    decodeRequest (encodeRequest x) = Except.ok x
    ∧ ∀ y, decodeRequest (encodeRequest x) = Except.ok y →
        y.method = x.method ∧ y.params = x.params ∧ y.id = x.id := by
  have h : decodeRequest (encodeRequest x) = Except.ok x := by
    obtain ⟨jr, m, p, i⟩ := x
    cases p <;> rfl
  refine ⟨h, ?_⟩
  intro y hy
  rw [h] at hy
  cases hy
  exact ⟨rfl, rfl, rfl⟩

/-- Witness for C4 at a concrete request with params and id. -/
theorem decode_encode_roundtrip_witness :
    decodeRequest (encodeRequest
        { method := "list_tables", params := some [("limit", Json.num 10)],
          id := Json.num 1 })
      = Except.ok ({ method := "list_tables",
                     params := some [("limit", Json.num 10)],
                     id := Json.num 1 } : JsonRpcRequest)
    ∧ ("list_tables" = "list_tables"
       ∧ some [("limit", Json.num 10)] = some [("limit", Json.num 10)]
       ∧ Json.num 1 = Json.num 1) :=
  ⟨(decode_encode_roundtrip _).1,
   (decode_encode_roundtrip
      { method := "list_tables", params := some [("limit", Json.num 10)],
        id := Json.num 1 }).2 _ (decode_encode_roundtrip _).1⟩

/-- A registered tool whose handler returns a short string. -/
def okHandler : Handler := fun _ => InvokeResult.ok (Json.str "ok")

/-- A registered tool whose handler raises `ValueError("boom")` while
executing. -/
def valueErrorHandler : Handler := fun _ => InvokeResult.valueError "boom"

/-- A registered tool whose handler raises a non-`ValueError` exception
with text "db down". -/
def crashHandler : Handler := fun _ => InvokeResult.otherError "db down"

/-- A concrete server environment: default CORS allow-list, three
registered tools, empty session table. -/
def demoEnv : Env :=
  { corsOrigins := ["http://localhost:3000"],
    tools := [("insert_record", okHandler),
              ("boom_tool", valueErrorHandler),
              ("crash_tool", crashHandler)],
    sessions := [],
    freshId := "fresh-uuid",
    now := 100 }

/-- A well-formed request body invoking `insert_record`. -/
def demoBody : BodyParse :=
  BodyParse.json (Json.obj [("method", Json.str "insert_record")])

/-- The origin-rejection condition of `mcp_endpoint` (lines 121-124),
characterised: a truthy Origin header that fails `_is_valid_origin` means
a non-empty Origin whose hostname is neither loopback name and whose
literal value is not in the allow-list. -/
lemma origin_cond_iff (co : List String) (origin : Option String) :
    (headerTruthy origin && !is_valid_origin co (origin.getD "")) = true ↔
    ∃ s, origin = some s ∧ s ≠ ""
      ∧ urlHostname s ≠ some "localhost"
      ∧ urlHostname s ≠ some "127.0.0.1"
      ∧ s ∉ co := by
  cases origin with
  | none => simp [headerTruthy]
  | some s =>
    by_cases hs : s = ""
    · subst hs
      simp [headerTruthy]
    · simp only [headerTruthy, Option.getD_some, Bool.and_eq_true,
        Bool.not_eq_true', Option.some.injEq]
      constructor
      · rintro ⟨-, hv⟩
        rw [is_valid_origin, if_neg hs] at hv
        by_cases hl : (urlHostname s = some "localhost"
            ∨ urlHostname s = some "127.0.0.1")
        · rw [if_pos] at hv
          · exact absurd hv (by simp)
          · rcases hl with hl | hl <;> simp [hl]
        · push_neg at hl
          rw [if_neg] at hv
          · exact ⟨s, rfl, hs, hl.1, hl.2, by simpa using hv⟩
          · simp only [Bool.or_eq_true, decide_eq_true_eq]
            tauto
      · rintro ⟨s2, heq, -, h1, h2, h3⟩
        cases heq
        refine ⟨by simpa using hs, ?_⟩
        rw [is_valid_origin, if_neg hs, if_neg]
        · simpa using h3
        · simp only [Bool.or_eq_true, decide_eq_true_eq]
          tauto

lemma mcp_endpoint_ne_forbidden (env : Env) (origin : Option String)
    (hdr : Option String) (body : BodyParse)
    (hc : ¬(headerTruthy origin
        && !is_valid_origin env.corsOrigins (origin.getD "")) = true) :
    (mcp_endpoint env origin hdr body).1 ≠ HttpOutcome.forbidden := by
  unfold mcp_endpoint
  rw [if_neg hc]
  rcases body with _ | j
  · simp
  · rcases j with _ | b | n | s | xs | fields
    · simp
    · simp
    · simp
    · simp
    · simp
    · rcases hv : validateRequest fields with ns | req
      · simp [hv]
      · simp only [hv]
        rcases hi : invoke_tool env.tools req.method ((req.params).getD [])
          with r | m | m
        · simp only [hi]
          cases hss : should_stream req.method r <;> simp [hss]
        · simp [hi]
        · simp [hi]

/-- C7 (amended): a `POST /mcp` request is rejected with HTTP 403 before
its body is processed (the session table is untouched) if and only if an
Origin header is present *with a non-empty value* that is neither a
loopback origin (hostname `localhost` or `127.0.0.1`) nor a member of the
configured allow-list; a request with no Origin header is always accepted,
and a loopback Origin is accepted regardless of the allow-list. -/
theorem origin_check_spec (env : Env) (origin : Option String)
    (hdr : Option String) (body : BodyParse) :
    ((mcp_endpoint env origin hdr body).1 = HttpOutcome.forbidden ↔
      ∃ s, origin = some s ∧ s ≠ ""
        ∧ urlHostname s ≠ some "localhost"
        ∧ urlHostname s ≠ some "127.0.0.1"
        ∧ s ∉ env.corsOrigins)
    ∧ ((mcp_endpoint env origin hdr body).1 = HttpOutcome.forbidden →
        (mcp_endpoint env origin hdr body).2 = env.sessions) := by
  rw [← origin_cond_iff env.corsOrigins origin]
  by_cases hc : (headerTruthy origin
      && !is_valid_origin env.corsOrigins (origin.getD "")) = true
  · refine ⟨⟨fun _ => hc, fun _ => ?_⟩, fun _ => ?_⟩
    · unfold mcp_endpoint
      rw [if_pos hc]
    · unfold mcp_endpoint
      rw [if_pos hc]
  · exact ⟨⟨fun h => absurd h (mcp_endpoint_ne_forbidden env origin hdr
        body hc), fun h => absurd h hc⟩,
      fun h => absurd h (mcp_endpoint_ne_forbidden env origin hdr body hc)⟩

/-- Witness for C7 at concrete inputs: `Origin: https://evil.example`
against the default allow-list is rejected with 403; with no Origin
header, or with the loopback `Origin: http://localhost:3000` even under an
empty allow-list, the request is not rejected. -/
theorem origin_check_spec_witness :
    (mcp_endpoint demoEnv (some "https://evil.example") none demoBody).1
      = HttpOutcome.forbidden
    ∧ (mcp_endpoint demoEnv none none demoBody).1 ≠ HttpOutcome.forbidden
    ∧ (mcp_endpoint { demoEnv with corsOrigins := [] }
        (some "http://localhost:3000") none demoBody).1
      ≠ HttpOutcome.forbidden := by
  refine ⟨?_, ?_, ?_⟩
  · exact (origin_check_spec demoEnv (some "https://evil.example") none
      demoBody).1.mpr ⟨"https://evil.example", rfl, by decide, by decide,
        by decide, by decide⟩
  · intro h
    have := (origin_check_spec demoEnv none none demoBody).1.mp h
    simp at this
  · intro h
    obtain ⟨s, hs, -, hl, -, -⟩ :=
      (origin_check_spec { demoEnv with corsOrigins := [] }
        (some "http://localhost:3000") none demoBody).1.mp h
    cases hs
    exact hl rfl

/-- Counterexample to C7 as stated: an Origin header that is *present but
empty* is neither a loopback origin nor in the allow-list, yet the request
is not rejected — Python's `if origin:` truthiness treats the empty value
as an absent header, and the request is served normally. -/
theorem origin_check_cex :
    (mcp_endpoint demoEnv (some "") none demoBody).1
      = HttpOutcome.jsonResp 200 { result := Json.str "ok" }
          (some "fresh-uuid")
    ∧ urlHostname "" ≠ some "localhost"
    ∧ urlHostname "" ≠ some "127.0.0.1"
    ∧ "" ∉ demoEnv.corsOrigins := by
  refine ⟨rfl, by decide, by decide, by decide⟩

lemma handle_session_unknown {t : SessionTable} {sid fresh : String}
    {now : Int} (h1 : sid ≠ "") (h2 : sid ∉ t.map Prod.fst) :
    handle_session t (some sid) fresh now = (none, t) := by
  simp only [handle_session, if_neg h1]
  rw [contains_eq_false_of_not_mem h2]
  simp

/-- C9 (amended): a `POST /mcp` request whose (non-empty) session id
header value is not a key of the session table leaves the session table
completely unchanged, and the response — whether success, streamed, error
or 403 — carries no `Mcp-Session-Id` header. -/
theorem unknown_session_frame (env : Env) (origin : Option String)
    (body : BodyParse) (sid : String) (h1 : sid ≠ "")
    (h2 : sid ∉ env.sessions.map Prod.fst) :
    (mcp_endpoint env origin (some sid) body).2 = env.sessions
    ∧ outcomeSessionHeader (mcp_endpoint env origin (some sid) body).1
        = none
    ∧ "Mcp-Session-Id" ∉ (sseHeaders none).map Prod.fst := by
  refine ⟨?_, ?_, by decide⟩ <;>
  · by_cases hc : (headerTruthy origin
        && !is_valid_origin env.corsOrigins (origin.getD "")) = true
    · simp [mcp_endpoint, hc, outcomeSessionHeader]
    · rcases body with _ | j
      · simp [mcp_endpoint, hc, outcomeSessionHeader]
      · rcases j with _ | b | n | st | xs | fields
        · simp [mcp_endpoint, hc, outcomeSessionHeader]
        · simp [mcp_endpoint, hc, outcomeSessionHeader]
        · simp [mcp_endpoint, hc, outcomeSessionHeader]
        · simp [mcp_endpoint, hc, outcomeSessionHeader]
        · simp [mcp_endpoint, hc, outcomeSessionHeader]
        · rcases hv : validateRequest fields with ns | req
          · simp [mcp_endpoint, hc, hv, outcomeSessionHeader]
          · rcases hi : invoke_tool env.tools req.method
                ((req.params).getD []) with r | m | m
            · cases hss : should_stream req.method r <;>
                simp [mcp_endpoint, hc, hv, hi, hss,
                  handle_session_unknown h1 h2, outcomeSessionHeader]
            · simp [mcp_endpoint, hc, hv, hi,
                handle_session_unknown h1 h2, outcomeSessionHeader]
            · simp [mcp_endpoint, hc, hv, hi,
                handle_session_unknown h1 h2, outcomeSessionHeader]

/-- Witness for C9 at concrete inputs: a fabricated session id against the
empty demo table. -/
theorem unknown_session_frame_witness :
    ("unknown-session-id" ≠ ""
      ∧ "unknown-session-id" ∉ demoEnv.sessions.map Prod.fst)
    ∧ (mcp_endpoint demoEnv none (some "unknown-session-id") demoBody).2
        = demoEnv.sessions
    ∧ outcomeSessionHeader
        (mcp_endpoint demoEnv none (some "unknown-session-id") demoBody).1
        = none := by
  refine ⟨⟨by decide, by decide⟩, ?_, ?_⟩
  · exact (unknown_session_frame demoEnv none demoBody
      "unknown-session-id" (by decide) (by decide)).1
  · exact (unknown_session_frame demoEnv none demoBody
      "unknown-session-id" (by decide) (by decide)).2.1

/-- Counterexample to C9 as stated: a request carrying a session id header
whose value is the empty string — not a key of the (empty) session table —
does *not* leave the table unchanged: `if session_id:` treats the empty
value as absent, so a brand-new session is created and its fresh id is
returned in the response header. -/
theorem unknown_session_frame_cex :
    mcp_endpoint demoEnv none (some "") demoBody
      = (HttpOutcome.jsonResp 200 { result := Json.str "ok" }
           (some "fresh-uuid"),
         [("fresh-uuid", { createdAt := 100, requests := 1,
                           lastSeen := some 100 })]) := rfl

/-- C1 (amended): for every `POST /mcp` request that passes the origin
check, the dispatcher classifies failures as follows: raw bytes that are
not valid JSON yield a JSON-RPC error with code -32700; a JSON *object*
body whose shape does not match `JsonRpcRequest` (e.g. `method` a number)
yields code -32600, while a JSON body that is not an object escapes as an
uncaught `TypeError` and produces no JSON-RPC error at all; a method name
not present in the tool registry yields code -32601; an exception raised
by a registered handler during execution yields code -32603 carrying the
exception text — unless it is a `ValueError`, which is caught by the same
handler as registry misses and yields code -32601 carrying its text. -/
theorem dispatch_error_classification (env : Env) (origin : Option String)
    (hdr : Option String)
    (hok : ¬(headerTruthy origin
        && !is_valid_origin env.corsOrigins (origin.getD "")) = true) :
    ((mcp_endpoint env origin hdr BodyParse.invalidJson).1
      = HttpOutcome.jsonResp 400
          { error := mkError (-32700) "Invalid JSON" Json.null } none)
    ∧ (∀ fields ns, validateRequest fields = Except.error ns →
        (mcp_endpoint env origin hdr (BodyParse.json (Json.obj fields))).1
          = HttpOutcome.jsonResp 400
              { error := mkError (-32600) "Invalid JSON-RPC request"
                  (Json.arr (ns.map Json.str)) } none)
    ∧ (∀ j, (∀ fields, j ≠ Json.obj fields) →
        (mcp_endpoint env origin hdr (BodyParse.json j)).1
          = HttpOutcome.uncaughtTypeError)
    ∧ (∀ fields req, validateRequest fields = Except.ok req →
        req.method ∉ env.tools.map Prod.fst →
        (mcp_endpoint env origin hdr (BodyParse.json (Json.obj fields))).1
          = HttpOutcome.jsonResp 404
              { id := req.id,
                error := mkError (-32601)
                  ("Tool \x27" ++ req.method
                    ++ "\x27 not found. Available tools: "
                    ++ pyReprStringList (env.tools.map Prod.fst))
                  Json.null } none)
    ∧ (∀ fields req h, validateRequest fields = Except.ok req →
        lookupFirst req.method env.tools = some h →
        (∀ msg, h ((req.params).getD []) = InvokeResult.valueError msg →
          (mcp_endpoint env origin hdr
              (BodyParse.json (Json.obj fields))).1
            = HttpOutcome.jsonResp 404
                { id := req.id, error := mkError (-32601) msg Json.null }
                none)
        ∧ (∀ msg, h ((req.params).getD []) = InvokeResult.otherError msg →
          (mcp_endpoint env origin hdr
              (BodyParse.json (Json.obj fields))).1
            = HttpOutcome.jsonResp 500
                { id := req.id,
                  error := mkError (-32603)
                    ("Tool execution failed: " ++ msg) Json.null }
                none)) := by
  refine ⟨?_, ?_, ?_, ?_, ?_⟩
  · simp [mcp_endpoint, hok]
  · intro fields ns hv
    simp [mcp_endpoint, hok, hv]
  · intro j hne
    rcases j with _ | b | n | st | xs | fields
    · simp [mcp_endpoint, hok]
    · simp [mcp_endpoint, hok]
    · simp [mcp_endpoint, hok]
    · simp [mcp_endpoint, hok]
    · simp [mcp_endpoint, hok]
    · exact absurd rfl (hne fields)
  · intro fields req hv hnm
    simp [mcp_endpoint, hok, hv, invoke_tool,
      lookupFirst_eq_none_of_not_mem hnm]
  · intro fields req h hv hl
    constructor
    · intro msg hmsg
      simp [mcp_endpoint, hok, hv, invoke_tool, hl, hmsg]
    · intro msg hmsg
      simp [mcp_endpoint, hok, hv, invoke_tool, hl, hmsg]

/-- Witness for C1 (amended) at concrete inputs: a handler that raises a
non-`ValueError` exception with text "db down" produces a -32603 response
carrying that text, and an unregistered method produces -32601. -/
theorem dispatch_error_classification_witness :
    (¬(headerTruthy none
        && !is_valid_origin demoEnv.corsOrigins
             ((none : Option String).getD "")) = true)
    ∧ (mcp_endpoint demoEnv none none
          (BodyParse.json (Json.obj [("method", Json.str "crash_tool")]))).1
        = HttpOutcome.jsonResp 500
            { error := mkError (-32603) "Tool execution failed: db down"
                Json.null } none
    ∧ (mcp_endpoint demoEnv none none
          (BodyParse.json (Json.obj [("method", Json.str "no_such")]))).1
        = HttpOutcome.jsonResp 404
            { error := mkError (-32601)
                ("Tool \x27no_such\x27 not found. Available tools: "
                  ++ pyReprStringList
                       ["insert_record", "boom_tool", "crash_tool"])
                Json.null } none := by
  refine ⟨by decide, ?_, ?_⟩
  · exact ((dispatch_error_classification demoEnv none none
        (by decide)).2.2.2.2 [("method", Json.str "crash_tool")]
        { method := "crash_tool" } crashHandler rfl rfl).2 "db down" rfl
  · exact (dispatch_error_classification demoEnv none none
        (by decide)).2.2.2.1 [("method", Json.str "no_such")]
        { method := "no_such" } rfl (by decide)

/-- Counterexample to C1 as stated: the registered tool `boom_tool` raises
`ValueError("boom")` *during its execution*, yet the dispatcher answers
with code -32601 (the `except ValueError` arm meant for registry misses),
not -32603; and a JSON body that is an array — whose shape does not match
`JsonRpcRequest` — produces an uncaught `TypeError` instead of -32600. -/
theorem dispatch_error_classification_cex :
    (mcp_endpoint demoEnv none none
        (BodyParse.json (Json.obj [("method", Json.str "boom_tool")]))).1
      = HttpOutcome.jsonResp 404
          { error := mkError (-32601) "boom" Json.null } none
    ∧ (mcp_endpoint demoEnv none none (BodyParse.json (Json.arr []))).1
        = HttpOutcome.uncaughtTypeError := ⟨rfl, rfl⟩

lemma respCode_mkError (i : Json) (c : Int) (m : String) (d : Json) :
    respCode { id := i, error := mkError c m d } = some c := rfl

lemma respCode_success (i r : Json) :
    respCode { id := i, result := r } = none := rfl

lemma mkError_ne_null (c : Int) (m : String) (d : Json) :
    mkError c m d ≠ Json.null := by
  simp [mkError]

/-- C10: the HTTP status code of every `POST /mcp` response is determined
by its JSON-RPC outcome — a success (`error` unset) is delivered with 200,
a -32601 error with 404, a -32603 error with 500, and the -32600 and
-32700 errors with 400 and a `null` response id (the default `id = None`),
even when the raw request body contained an id; a streamed success is
delivered with status 200 as well. -/
theorem status_code_mapping (env : Env) (origin hdr : Option String)
    (body : BodyParse) :
    (∀ (st : Nat) (resp : JsonRpcResponse) (sid : Option String),
      (mcp_endpoint env origin hdr body).1
        = HttpOutcome.jsonResp st resp sid →
      ((resp.error = Json.null → st = 200)
       ∧ (respCode resp = some (-32601) → st = 404)
       ∧ (respCode resp = some (-32603) → st = 500)
       ∧ (respCode resp = some (-32600) → st = 400 ∧ resp.id = Json.null)
       ∧ (respCode resp = some (-32700) → st = 400 ∧ resp.id = Json.null)))
    ∧ sseStatus = 200 := by
  refine ⟨?_, rfl⟩
  intro st resp sid heq
  by_cases hc : (headerTruthy origin
      && !is_valid_origin env.corsOrigins (origin.getD "")) = true
  · simp [mcp_endpoint, hc] at heq
  · rcases body with _ | j
    · simp [mcp_endpoint, hc] at heq
      obtain ⟨rfl, rfl, rfl⟩ := heq
      refine ⟨fun h => absurd h (mkError_ne_null _ _ _), fun h => ?_,
        fun h => ?_, fun h => ?_, fun _ => ⟨rfl, rfl⟩⟩ <;>
      · rw [respCode_mkError] at h
        exact absurd (Option.some.inj h) (by decide)
    · rcases j with _ | b | n | sj | xs | fields
      · simp [mcp_endpoint, hc] at heq
      · simp [mcp_endpoint, hc] at heq
      · simp [mcp_endpoint, hc] at heq
      · simp [mcp_endpoint, hc] at heq
      · simp [mcp_endpoint, hc] at heq
      · rcases hv : validateRequest fields with ns | req
        · simp [mcp_endpoint, hc, hv] at heq
          obtain ⟨rfl, rfl, rfl⟩ := heq
          refine ⟨fun h => absurd h (mkError_ne_null _ _ _), fun h => ?_,
            fun h => ?_, fun _ => ⟨rfl, rfl⟩, fun h => ?_⟩ <;>
          · rw [respCode_mkError] at h
            exact absurd (Option.some.inj h) (by decide)
        · rcases hi : invoke_tool env.tools req.method
              ((req.params).getD []) with r | m | m
          · cases hss : should_stream req.method r
            · simp [mcp_endpoint, hc, hv, hi, hss] at heq
              obtain ⟨rfl, rfl, rfl⟩ := heq
              refine ⟨fun _ => rfl, fun h => ?_, fun h => ?_,
                fun h => ?_, fun h => ?_⟩ <;>
              · rw [respCode_success] at h
                exact Option.noConfusion h
            · simp [mcp_endpoint, hc, hv, hi, hss] at heq
          · simp [mcp_endpoint, hc, hv, hi] at heq
            obtain ⟨rfl, rfl, rfl⟩ := heq
            refine ⟨fun h => absurd h (mkError_ne_null _ _ _),
              fun _ => rfl, fun h => ?_, fun h => ?_, fun h => ?_⟩ <;>
            · rw [respCode_mkError] at h
              exact absurd (Option.some.inj h) (by decide)
          · simp [mcp_endpoint, hc, hv, hi] at heq
            obtain ⟨rfl, rfl, rfl⟩ := heq
            refine ⟨fun h => absurd h (mkError_ne_null _ _ _),
              fun h => ?_, fun _ => rfl, fun h => ?_, fun h => ?_⟩ <;>
            · rw [respCode_mkError] at h
              exact absurd (Option.some.inj h) (by decide)

/-- Witness for C10 at concrete inputs: a parse-error request is answered
with status 400 and a null id even though ids exist in other requests, and
an unknown method with 404. -/
theorem status_code_mapping_witness :
    (mcp_endpoint demoEnv none none BodyParse.invalidJson).1
      = HttpOutcome.jsonResp 400
          { error := mkError (-32700) "Invalid JSON" Json.null } none
    ∧ ((400 : Nat) = 400
       ∧ ({ error := mkError (-32700) "Invalid JSON" Json.null }
            : JsonRpcResponse).id = Json.null) := by
  refine ⟨rfl, ?_⟩
  exact ((status_code_mapping demoEnv none none
      BodyParse.invalidJson).1 400
      { error := mkError (-32700) "Invalid JSON" Json.null } none
      rfl).2.2.2.2 rfl

/-- C5 (amended): every `JsonRpcResponse` the endpoint constructs
populates at most one of `result` and `error` — never both: error
responses leave `result` as `None` and success responses leave `error` as
`None` — but the encoded wire form does not omit the unused key:
`model_dump()` serialises all four fields, the unpopulated one as `null`.
-/
theorem response_exclusivity (env : Env) (origin hdr : Option String)
    (body : BodyParse) :
    (∀ (st : Nat) (resp : JsonRpcResponse) (sid : Option String),
      (mcp_endpoint env origin hdr body).1
        = HttpOutcome.jsonResp st resp sid →
      (resp.result = Json.null ∨ resp.error = Json.null))
    ∧ (∀ (r : JsonRpcResponse), ∃ fs, responseToWire r = Json.obj fs
        ∧ ("result", r.result) ∈ fs ∧ ("error", r.error) ∈ fs) := by
  constructor
  · intro st resp sid heq
    by_cases hc : (headerTruthy origin
        && !is_valid_origin env.corsOrigins (origin.getD "")) = true
    · simp [mcp_endpoint, hc] at heq
    · rcases body with _ | j
      · simp [mcp_endpoint, hc] at heq
        obtain ⟨rfl, rfl, rfl⟩ := heq
        exact Or.inl rfl
      · rcases j with _ | b | n | sj | xs | fields
        · simp [mcp_endpoint, hc] at heq
        · simp [mcp_endpoint, hc] at heq
        · simp [mcp_endpoint, hc] at heq
        · simp [mcp_endpoint, hc] at heq
        · simp [mcp_endpoint, hc] at heq
        · rcases hv : validateRequest fields with ns | req
          · simp [mcp_endpoint, hc, hv] at heq
            obtain ⟨rfl, rfl, rfl⟩ := heq
            exact Or.inl rfl
          · rcases hi : invoke_tool env.tools req.method
                ((req.params).getD []) with r | m | m
            · cases hss : should_stream req.method r
              · simp [mcp_endpoint, hc, hv, hi, hss] at heq
                obtain ⟨rfl, rfl, rfl⟩ := heq
                exact Or.inr rfl
              · simp [mcp_endpoint, hc, hv, hi, hss] at heq
            · simp [mcp_endpoint, hc, hv, hi] at heq
              obtain ⟨rfl, rfl, rfl⟩ := heq
              exact Or.inl rfl
            · simp [mcp_endpoint, hc, hv, hi] at heq
              obtain ⟨rfl, rfl, rfl⟩ := heq
              exact Or.inl rfl
  · intro r
    exact ⟨_, rfl, by simp, by simp⟩

/-- Witness for C5 (amended) at a concrete input: the parse-error response
has a null `result`. -/
theorem response_exclusivity_witness :
    (mcp_endpoint demoEnv none none BodyParse.invalidJson).1
      = HttpOutcome.jsonResp 400
          { error := mkError (-32700) "Invalid JSON" Json.null } none
    ∧ (({ error := mkError (-32700) "Invalid JSON" Json.null }
          : JsonRpcResponse).result = Json.null
       ∨ ({ error := mkError (-32700) "Invalid JSON" Json.null }
          : JsonRpcResponse).error = Json.null) :=
  ⟨rfl, (response_exclusivity demoEnv none none BodyParse.invalidJson).1
      400 { error := mkError (-32700) "Invalid JSON" Json.null } none rfl⟩

/-- Counterexample to C5 as stated: the endpoint's parse-error response
has `error` set, yet its wire encoding still *contains* the `result` key
(serialised as `null`) — `model_dump()` does not omit it; symmetrically a
success response's wire form contains an `error` key. -/
theorem response_exclusivity_cex :
    (mcp_endpoint demoEnv none none BodyParse.invalidJson).1
      = HttpOutcome.jsonResp 400
          { error := mkError (-32700) "Invalid JSON" Json.null } none
    ∧ responseToWire { error := mkError (-32700) "Invalid JSON" Json.null }
      = Json.obj [("jsonrpc", Json.str "2.0"), ("id", Json.null),
                  ("result", Json.null),
                  ("error", mkError (-32700) "Invalid JSON" Json.null)]
    ∧ responseToWire { result := Json.str "ok" }
      = Json.obj [("jsonrpc", Json.str "2.0"), ("id", Json.null),
                  ("result", Json.str "ok"), ("error", Json.null)] :=
  ⟨rfl, rfl, rfl⟩

/-- C8: the SSE emitter yields exactly one SSE event, whose payload on
success is the full JSON-RPC success response (never incrementally
chunked); on an internal failure while preparing that event it instead
yields an SSE event carrying a JSON-RPC error payload with code -32603;
and the streaming response carries the headers `Cache-Control: no-cache`,
`Connection: keep-alive` and `Content-Type: text/event-stream`, delivered
with status 200. -/
theorem sse_emitter_spec (result requestId : Json) (msg : String)
    (sid : Option String) :
    (∀ prep, (sseEvents result requestId prep).length = 1)
    ∧ sseEvents result requestId SsePrep.ok
      = ["data: " ++ dumps (responseToWire
          { id := requestId, result := result }) ++ "\x0a\x0a"]
    ∧ sseEvents result requestId (SsePrep.fail msg)
      = ["data: " ++ dumps (responseToWire
          { id := requestId,
            error := mkError (-32603) ("Streaming error: " ++ msg)
              Json.null }) ++ "\x0a\x0a"]
    ∧ respCode { id := requestId,
                 error := mkError (-32603) ("Streaming error: " ++ msg)
                   Json.null }
      = some (-32603)
    ∧ ("Cache-Control", "no-cache") ∈ sseHeaders sid
    ∧ ("Connection", "keep-alive") ∈ sseHeaders sid
    ∧ ("Content-Type", "text/event-stream") ∈ sseHeaders sid
    ∧ sseStatus = 200 := by
  refine ⟨fun prep => ?_, rfl, rfl, rfl, ?_, ?_, ?_, rfl⟩
  · cases prep <;> rfl
  all_goals simp [sseHeaders]
